import Mathlib

/-!
Shallow embedding of `tools/profile_converter.py` (rekall profile converter).

The converter turns Volatility profile zip files into the Rekall format.  We
model the text-level plumbing of Python 2 exactly: `str.split()`,
`str.splitlines()`, `str.strip()`, `long(s, 16)`, dict insertion
(last-write-wins), `max` over dict values (ValueError on an empty sequence),
and the regex matchers the converters use on archive member names.  Archives
are ordered lists of `(name, content)` pairs; the output zip is modelled as
the ordered list of writes the converter performs.  Python exceptions are
modelled by `PyError`; `except RuntimeError` in the dispatcher catches only
the `runtimeError` constructor.
-/

/-- Characters Python 2 `str.split()` / `str.strip()` treat as whitespace. -/
def isPyWS (c : Char) : Bool :=
  c = ' ' || c = '\t' || c = '\n' || c = '\x0d' || c = '\x0b' || c = '\x0c'

/-- Accumulating worker for `str.split()` with no separator argument:
whitespace runs separate tokens, and no empty tokens are produced. -/
def splitWSAux (acc : List Char) : List Char → List (List Char)
  | [] => if acc.isEmpty then [] else [acc.reverse]
  | c :: rest =>
    if isPyWS c then
      if acc.isEmpty then splitWSAux [] rest
      else acc.reverse :: splitWSAux [] rest
    else splitWSAux (c :: acc) rest

/-- Python 2 `s.split()` (no argument): split on whitespace runs. -/
def pySplitWS (s : String) : List String :=
  (splitWSAux [] s.data).map List.asString

/-- Python 2 `s.strip()` (no argument): drop leading and trailing whitespace. -/
def pyStrip (s : String) : String :=
  List.asString (((s.data.dropWhile isPyWS).reverse.dropWhile isPyWS).reverse)

/-- Accumulating worker for `str.splitlines()`: line boundaries are
`\r\n`, `\r` and `\n`, and no trailing empty line is produced. -/
def splitLinesAux (acc : List Char) : List Char → List (List Char)
  | [] => if acc.isEmpty then [] else [acc.reverse]
  | '\x0d' :: '\n' :: rest => acc.reverse :: splitLinesAux [] rest
  | '\x0d' :: rest => acc.reverse :: splitLinesAux [] rest
  | '\n' :: rest => acc.reverse :: splitLinesAux [] rest
  | c :: rest => splitLinesAux (c :: acc) rest

/-- Python 2 `s.splitlines()`. -/
def pySplitLines (s : String) : List String :=
  (splitLinesAux [] s.data).map List.asString

/-- Value of one hexadecimal digit, `none` for a non-digit; the ranges are
the code points of `0`-`9` (48-57), `a`-`f` (97-102) and `A`-`F` (65-70). -/
def hexVal (c : Char) : Option Nat :=
  let n := c.toNat
  if 48 ≤ n && n ≤ 57 then some (n - 48)
  else if 97 ≤ n && n ≤ 102 then some (n - 87)
  else if 65 ≤ n && n ≤ 70 then some (n - 55)
  else none

/-- Accumulate the value of a hex digit string. -/
def hexDigitsAux (acc : Nat) : List Char → Option Nat
  | [] => some acc
  | c :: rest =>
    match hexVal c with
    | some v => hexDigitsAux (16 * acc + v) rest
    | none => none

/-- A non-empty run of hexadecimal digits, else `none`. -/
def hexDigits : List Char → Option Nat
  | [] => none
  | l => hexDigitsAux 0 l

/-- Digits of a base-16 Python literal: an optional `0x` / `0X` prefix
followed by at least one hex digit. -/
def hexBody : List Char → Option Nat
  | '0' :: 'x' :: c :: rest => hexDigits (c :: rest)
  | '0' :: 'X' :: c :: rest => hexDigits (c :: rest)
  | l => hexDigits l

/-- Python 2 `long(s, 16)`: optional surrounding whitespace, optional sign,
optional `0x` prefix, at least one hex digit; `none` models `ValueError`. -/
def pyLong16 (s : String) : Option Int :=
  match (pyStrip s).data with
  | '+' :: rest => (hexBody rest).map Int.ofNat
  | '-' :: rest => (hexBody rest).map (fun n => -(Int.ofNat n))
  | l => (hexBody l).map Int.ofNat

/-- A Python dict from symbol name to address, as an ordered association
list; `symInsert` gives dict semantics (update in place, append if new). -/
abbrev SymMap : Type := List (String × Int)

/-- Python 2 `d[k] = v` on a dict: replace the existing binding, else append. -/
def symInsert (m : SymMap) (k : String) (v : Int) : SymMap :=
  if (List.any m fun p => p.1 = k) then
    List.map (fun p => if p.1 = k then (k, v) else p) m
  else m ++ [(k, v)]

/-- The Python exceptions the converter can raise: `ValueError` (bad tuple
unpacking, `max` of an empty sequence) and `RuntimeError` with its message. -/
inductive PyError where
  | valueError : PyError
  | runtimeError (msg : String) : PyError
deriving DecidableEq

/-- Python 2 `max(d.values())`: `ValueError` on an empty dict. -/
def pyMaxValues (m : SymMap) : Except PyError Int :=
  match List.map Prod.snd m with
  | [] => .error .valueError
  | v :: vs => .ok (vs.foldl max v)

/-- Outputs of the external deep parsers and of `json.loads`, opaque to the
converter core (the spec scopes the deep debug-info parsers and json decoding
out as collaborators); each constructor records which source produced the
type table and from which raw content. -/
inductive VTypes where
  | fromKo (raw : String) : VTypes
  | fromDwarf (raw : String) : VTypes
  | fromJson (raw : String) : VTypes
  | fromVtypes (raw : String) : VTypes
deriving DecidableEq

/-- One value written into the output zip: `StoreData` of the constants, of
the vtypes, of the metadata dict, or a raw byte blob via `Create`. -/
inductive OutValue where
  | constantsData (m : SymMap) : OutValue
  | vtypesData (v : VTypes) : OutValue
  | metadata (profileClass : Option String) (constants vtypesName : String) : OutValue
  | raw (bytes : String) : OutValue
deriving DecidableEq

/-- An input zip archive: named entries with their contents, in listed order. -/
abbrev Archive : Type := List (String × String)

/-- Python truthiness of `SelectFile`'s result: `None` and the empty string
are falsy. -/
def pyTruthy (o : Option String) : Bool :=
  match o with
  | none => false
  | some s => s != ""

/-- `ProfileConverter.SelectFile`: content of the first archive member whose
name matches the (case-insensitively compiled) regex, here passed as the
predicate the compiled pattern denotes; `None` when nothing matches. -/
def ProfileConverter.SelectFile (regex : String → Bool) : Archive → Option String
  | [] => none
  | (name, content) :: rest =>
    if regex name then some content else ProfileConverter.SelectFile regex rest

/-- Whether `pat` is a prefix of `l`. -/
def leadsWith : List Char → List Char → Bool
  | [], _ => true
  | p :: ps, q :: qs => if p = q then leadsWith ps qs else false
  | _, _ => false

/-- Whether `pat` occurs anywhere inside `l`. -/
def containsSub (pat : List Char) : List Char → Bool
  | [] => leadsWith pat []
  | l@(_ :: rest) => leadsWith pat l || containsSub pat rest

/-- Python 2 `pat in line` for strings. -/
def containsStr (line pat : String) : Bool :=
  containsSub pat.data line.data

/-- Lower-case a string (ASCII, as the member names at hand are). -/
def lowerStr (s : String) : String :=
  List.asString (s.data.map Char.toLower)

/-- Denotation of `re.search(suffix-anchored-pattern, name, re.I)` for the
literal suffix patterns the converters use (`\.ko$`, `\.dwarf$`, `\.json$`,
`\.vtypes$`, `dsymutil$`): case-insensitive suffix test. -/
def lowerEndsWith (suffix name : String) : Bool :=
  leadsWith suffix.data.reverse ((lowerStr name).data.reverse)

/-- The literal part of the pattern `System.map` at the current
position (case already lowered; `.` in the regex matches any character). -/
def sysMapPatAt : List Char → Bool
  | 's' :: 'y' :: 's' :: 't' :: 'e' :: 'm' :: _ :: 'm' :: 'a' :: 'p' :: _ => true
  | _ => false

/-- Scan for the pattern at the string start or right after a `/`,
per the regex `(^|/)System.map`. -/
def sysMapSearch (atBoundary : Bool) : List Char → Bool
  | [] => false
  | l@(c :: rest) =>
    if atBoundary && sysMapPatAt l then true else sysMapSearch (c = '/') rest

/-- Denotation of `re.search("(^|/)System.map", name, re.I)` as a Boolean. -/
def matchSystemMap (name : String) : Bool :=
  sysMapSearch true (lowerStr name).data

/-- `ProfileConverter.WriteProfile`: store the constants, the vtypes and the
metadata dict (`ProfileClass` may still be the unresolved `None`); the source
method performs no check and cannot fail. -/
def ProfileConverter.WriteProfile (profile_class : Option String) (system_map : SymMap)
    (vtypes : VTypes) : List (String × OutValue) :=
  [("Constants.json", OutValue.constantsData system_map),
   ("vtypes.json", OutValue.vtypesData vtypes),
   ("metadata", OutValue.metadata profile_class "Constants.json" "vtypes.json")]

/-- One line of `LinuxConverter.ParseSystemMap`: `line.strip().split()` is
unpacked into exactly three names (a mismatch raises `ValueError`, outside
the `try`); only `long(address, 16)` is guarded, a bad address is skipped. -/
def linuxParseLine (m : SymMap) (line : String) : Except PyError SymMap :=
  match pySplitWS (pyStrip line) with
  | [address, _t, symbol] =>
    match pyLong16 address with
    | some v => .ok (symInsert m symbol v)
    | none => .ok m
  | _ => .error .valueError

/-- Fold `linuxParseLine` over the lines, stopping at the first raise. -/
def linuxParseLines (m : SymMap) : List String → Except PyError SymMap
  | [] => .ok m
  | l :: rest =>
    match linuxParseLine m l with
    | .ok m2 => linuxParseLines m2 rest
    | .error e => .error e

/-- `LinuxConverter.ParseSystemMap`. -/
def LinuxConverter.ParseSystemMap (system_map : String) : Except PyError SymMap :=
  linuxParseLines [] (pySplitLines system_map)

/-- `LinuxConverter.WriteProfile` (also inherited by `OSXConverter`, whence
the `base` argument standing for `BASE_PROFILE_CLASS`): when no profile
class is set, infer it from the largest symbol address (`max` raises
`ValueError` on an empty map), then delegate to the shared writer. -/
def LinuxConverter.WriteProfile (base : String) (profile_class : Option String)
    (system_map : SymMap) (vtypes : VTypes) : Except PyError (List (String × OutValue)) :=
  match profile_class with
  | some c => .ok (ProfileConverter.WriteProfile (some c) system_map vtypes)
  | none =>
    match pyMaxValues system_map with
    | .error e => .error e
    | .ok largest =>
      if largest > (2 : Int) ^ 32 then
        .ok (ProfileConverter.WriteProfile (some (base ++ "64")) system_map vtypes)
      else
        .ok (ProfileConverter.WriteProfile (some (base ++ "32")) system_map vtypes)

/-- `LinuxConverter.Convert`: probe for `System.map`, parse it, then try the
`.ko`, `.dwarf` and `.json` type sources in that order; on the `.ko` path the
raw module bytes are first copied verbatim to `module.ko`.  The result is the
ordered list of output writes, or the raised exception. -/
def LinuxConverter.Convert (profile_class : Option String) (input : Archive) :
    Except PyError (List (String × OutValue)) :=
  let system_map_file := ProfileConverter.SelectFile matchSystemMap input
  if pyTruthy system_map_file then
    match LinuxConverter.ParseSystemMap (system_map_file.getD "") with
    | .error e => .error e
    | .ok sys_map =>
      let ko_file := ProfileConverter.SelectFile (lowerEndsWith ".ko") input
      if pyTruthy ko_file then
        match LinuxConverter.WriteProfile "Linux" profile_class sys_map
            (VTypes.fromKo (ko_file.getD "")) with
        | .error e => .error e
        | .ok w => .ok (("module.ko", OutValue.raw (ko_file.getD "")) :: w)
      else
        let dwarf_file := ProfileConverter.SelectFile (lowerEndsWith ".dwarf") input
        if pyTruthy dwarf_file then
          LinuxConverter.WriteProfile "Linux" profile_class sys_map
            (VTypes.fromDwarf (dwarf_file.getD ""))
        else
          let json_file := ProfileConverter.SelectFile (lowerEndsWith ".json") input
          if pyTruthy json_file then
            LinuxConverter.WriteProfile "Linux" profile_class sys_map
              (VTypes.fromJson (json_file.getD ""))
          else .error (.runtimeError "Unknown profile format.")
  else .error (.runtimeError "Unknown profile format.")

/-- The architecture check of `OSXConverter.ParseSystemMap` on one line:
when the profile class is still `None` and the line mentions
`Symbol table for`, the line's last whitespace token picks `Darwin64` or
`Darwin32`, and any other token raises `RuntimeError`. -/
def osxArchCheck (pc : Option String) (line : String) : Except PyError (Option String) :=
  match pc with
  | some c => .ok (some c)
  | none =>
    if containsStr line "Symbol table for" then
      let last_part := (pySplitWS line).getLast?.getD ""
      if last_part = "(x86_64)" then .ok (some "Darwin64")
      else if last_part = "(i386)" then .ok (some "Darwin32")
      else .error (.runtimeError ("Unknown Darwin Architecture " ++ last_part))
    else .ok pc

/-- Attempt `DLSYM_REGEX` (`([^ ]+) '([^ ]+)'$`) anchored at the current
position and extending to the end of the line: the first group runs to the
first space, then a space and a quote, then the second group up to a closing
quote that ends the line; both groups are non-empty and space-free. -/
def dlsymAt (l : List Char) : Option (String × String) :=
  match l.takeWhile (fun c => c ≠ ' '), l.dropWhile (fun c => c ≠ ' ') with
  | [], _ => none
  | g1@(_ :: _), ' ' :: '\'' :: ys =>
    match ys.getLast? with
    | some '\'' =>
      let g2 := ys.dropLast
      if g2.isEmpty then none
      else if g2.all (fun c => c ≠ ' ') then some (g1.asString, g2.asString)
      else none
    | _ => none
  | _, _ => none

/-- `DLSYM_REGEX.search(line)`: leftmost position at which the
end-anchored pattern matches. -/
def dlsymSearch : List Char → Option (String × String)
  | [] => none
  | l@(_ :: rest) =>
    match dlsymAt l with
    | some r => some r
    | none => dlsymSearch rest

/-- The symbol-recording half of `OSXConverter.ParseSystemMap` on one line:
lines mentioning `N_FUN`, `N_GSYM` or `N_STSYM` are run through
`DLSYM_REGEX`; a matched hexadecimal address is recorded under the quoted
name, a `ValueError` from `long` is swallowed. -/
def osxSymUpdate (m : SymMap) (line : String) : SymMap :=
  if containsStr line "N_FUN" || containsStr line "N_GSYM" || containsStr line "N_STSYM" then
    match dlsymSearch line.data with
    | some (g1, g2) =>
      match pyLong16 g1 with
      | some v => symInsert m g2 v
      | none => m
    | none => m
  else m

/-- One line of `OSXConverter.ParseSystemMap`: the architecture check runs
first (and can raise), then the symbol update. -/
def osxParseLine (st : Option String × SymMap) (line : String) :
    Except PyError (Option String × SymMap) :=
  match osxArchCheck st.1 line with
  | .ok pc => .ok (pc, osxSymUpdate st.2 line)
  | .error e => .error e

/-- Fold `osxParseLine` over the lines, stopping at the first raise. -/
def osxParseLines (st : Option String × SymMap) :
    List String → Except PyError (Option String × SymMap)
  | [] => .ok st
  | l :: rest =>
    match osxParseLine st l with
    | .ok st2 => osxParseLines st2 rest
    | .error e => .error e

/-- The pure symbol-map part of the scan, used to describe runs in which the
architecture check never fires. -/
def osxSymFold (m : SymMap) : List String → SymMap
  | [] => m
  | l :: rest => osxSymFold (osxSymUpdate m l) rest

/-- `OSXConverter.ParseSystemMap`: scan the dsymutil dump, threading the
mutable `self.profile_class` through the lines. -/
def OSXConverter.ParseSystemMap (profile_class : Option String) (system_map : String) :
    Except PyError (Option String × SymMap) :=
  osxParseLines (profile_class, []) (pySplitLines system_map)

/-- `OSXConverter.Convert`: probe for a member ending in `dsymutil`, parse
it, then try the `.vtypes` and `.json` type sources in that order; the
writer is the one inherited from `LinuxConverter`, with
`BASE_PROFILE_CLASS = "Darwin"` and the profile class the parse produced. -/
def OSXConverter.Convert (profile_class : Option String) (input : Archive) :
    Except PyError (List (String × OutValue)) :=
  let system_map_file := ProfileConverter.SelectFile (lowerEndsWith "dsymutil") input
  if pyTruthy system_map_file then
    match OSXConverter.ParseSystemMap profile_class (system_map_file.getD "") with
    | .error e => .error e
    | .ok (pc, sys_map) =>
      let vtype_file := ProfileConverter.SelectFile (lowerEndsWith ".vtypes") input
      if pyTruthy vtype_file then
        LinuxConverter.WriteProfile "Darwin" pc sys_map (VTypes.fromVtypes (vtype_file.getD ""))
      else
        let json_file := ProfileConverter.SelectFile (lowerEndsWith ".json") input
        if pyTruthy json_file then
          LinuxConverter.WriteProfile "Darwin" pc sys_map (VTypes.fromJson (json_file.getD ""))
        else .error (.runtimeError "Unknown profile format.")
  else .error (.runtimeError "Unknown profile format.")

/-- `ConvertProfile`: try `LinuxConverter` then `OSXConverter`, each
constructed as `converter(input, output)` — without the `profile_class`
argument, which the source accepts but never forwards; `except RuntimeError`
swallows a variant's failure and moves on, any other exception propagates,
and exhaustion raises the final `RuntimeError`. -/
def ConvertProfile (input : Archive) (profile_class : Option String) :
    Except PyError (List (String × OutValue)) :=
  match LinuxConverter.Convert none input with
  | .ok w => .ok w
  | .error (.runtimeError _) =>
    match OSXConverter.Convert none input with
    | .ok w => .ok w
    | .error (.runtimeError _) =>
      .error (.runtimeError "No suitable converter found - profile not recognized.")
    | .error e => .error e
  | .error e => .error e

/-! Helper lemmas about the Darwin scan. -/

/-- Once the profile class is set, a scanned line can only update the map. -/
theorem osxParseLine_some (c : String) (m : SymMap) (line : String) :
    osxParseLine (some c, m) line = .ok (some c, osxSymUpdate m line) := rfl

/-- Once the profile class is set, the whole scan is the pure symbol fold. -/
theorem osxParseLines_some (c : String) (m : SymMap) (ls : List String) :
    osxParseLines (some c, m) ls = .ok (some c, osxSymFold m ls) := by
  induction ls generalizing m with
  | nil => rfl
  | cons l rest ih =>
    simp only [osxParseLines, osxParseLine_some, osxSymFold]
    exact ih _

/-- A line without the architecture-marker substring only updates the map. -/
theorem osxParseLine_nomarker (m : SymMap) (line : String)
    (h : containsStr line "Symbol table for" = false) :
    osxParseLine (none, m) line = .ok (none, osxSymUpdate m line) := by
  simp [osxParseLine, osxArchCheck, h]

/-- With no architecture-marker line at all, the scan keeps the profile
class unresolved and is the pure symbol fold. -/
theorem osxParseLines_nomarker (ls : List String) (m : SymMap)
    (h : ∀ l ∈ ls, containsStr l "Symbol table for" = false) :
    osxParseLines (none, m) ls = .ok (none, osxSymFold m ls) := by
  induction ls generalizing m with
  | nil => rfl
  | cons l rest ih =>
    have hl : containsStr l "Symbol table for" = false := h l (by simp)
    simp only [osxParseLines, osxParseLine_nomarker _ _ hl, osxSymFold]
    exact ih _ (fun p hp => h p (by simp [hp]))

/-- Marker-free leading lines are absorbed into the starting map. -/
theorem osxParseLines_append (pre rest : List String) (m : SymMap)
    (h : ∀ l ∈ pre, containsStr l "Symbol table for" = false) :
    osxParseLines (none, m) (pre ++ rest) = osxParseLines (none, osxSymFold m pre) rest := by
  induction pre generalizing m with
  | nil => rfl
  | cons l pre2 ih =>
    have hl : containsStr l "Symbol table for" = false := h l (by simp)
    simp only [List.cons_append, osxParseLines, osxParseLine_nomarker _ _ hl, osxSymFold]
    exact ih _ (fun p hp => h p (by simp [hp]))

/-- On a line carrying the marker with the class still unresolved, the check
is decided by the line's final whitespace token. -/
theorem osxArchCheck_marker (line : String)
    (h : containsStr line "Symbol table for" = true) :
    osxArchCheck none line =
      (if (pySplitWS line).getLast?.getD "" = "(x86_64)" then .ok (some "Darwin64")
       else if (pySplitWS line).getLast?.getD "" = "(i386)" then .ok (some "Darwin32")
       else .error (.runtimeError
         ("Unknown Darwin Architecture " ++ (pySplitWS line).getLast?.getD ""))) := by
  simp [osxArchCheck, h]

/-! Claim theorems. -/

/-- C1 (counterexample): the claim says a line that does not split into
exactly three fields is skipped and the parse completes normally; on the
input `"c0100000 T start\njunk"` the one-field line `junk` instead raises
an uncaught `ValueError`, aborting the whole parse. -/
theorem C1_counterexample :
    LinuxConverter.ParseSystemMap "c0100000 T start\njunk" = .error PyError.valueError := rfl

/-- C1 (amended): a line that splits into exactly three whitespace fields
whose address field is not valid hexadecimal contributes no entry and does
not raise; but a line that does not split into exactly three fields raises
an uncaught `ValueError` (from the tuple unpacking, which sits outside the
`try`), aborting the parse. -/
theorem C1_line_behavior (m : SymMap) (line : String) :
    (∀ a t s, pySplitWS (pyStrip line) = [a, t, s] → pyLong16 a = none →
      linuxParseLine m line = .ok m)
    ∧ ((pySplitWS (pyStrip line)).length ≠ 3 →
      linuxParseLine m line = .error PyError.valueError) := by
  constructor
  · intro a t s hsplit hnone
    simp [linuxParseLine, hsplit, hnone]
  · intro hlen
    rcases h : pySplitWS (pyStrip line) with _ | ⟨a, _ | ⟨b, _ | ⟨c, _ | ⟨d, rest⟩⟩⟩⟩
    · simp [linuxParseLine, h]
    · simp [linuxParseLine, h]
    · simp [linuxParseLine, h]
    · rw [h] at hlen
      simp at hlen
    · simp [linuxParseLine, h]

/-- C1 (witness): a concrete non-hex three-field line is skipped, and a
concrete two-field line raises `ValueError`. -/
theorem C1_witness :
    linuxParseLine [] "zz T a" = .ok [] ∧
    linuxParseLine [] "one two" = .error PyError.valueError :=
  ⟨(C1_line_behavior [] "zz T a").1 "zz" "T" "a" (by decide) (by decide),
   (C1_line_behavior [] "one two").2 (by decide)⟩

/-- C2 (counterexample): on an archive whose dsymutil dump names the unknown
architecture `(ppc)`, the Darwin variant raises the distinct
`Unknown Darwin Architecture` failure, yet the dispatcher swallows it like
any `RuntimeError` and reports `No suitable converter found` instead —
contradicting the claim that it propagates immediately. -/
theorem C2_counterexample :
    OSXConverter.Convert none [("kernel.dsymutil", "Symbol table for: mach (ppc)")] =
      .error (.runtimeError "Unknown Darwin Architecture (ppc)")
    ∧ ConvertProfile [("kernel.dsymutil", "Symbol table for: mach (ppc)")] none =
      .error (.runtimeError "No suitable converter found - profile not recognized.") :=
  ⟨rfl, rfl⟩

/-- C2 (amended): the dispatcher's `except RuntimeError` is indiscriminate:
whenever both variants raise a `RuntimeError` — the unknown-architecture
failure included, since it is a `RuntimeError` too — `ConvertProfile`
swallows both and falls through to `No suitable converter found`. -/
theorem C2_dispatcher_swallows (input : Archive) (pc : Option String) (m1 m2 : String)
    (h1 : LinuxConverter.Convert none input = .error (.runtimeError m1))
    (h2 : OSXConverter.Convert none input = .error (.runtimeError m2)) :
    ConvertProfile input pc =
      .error (.runtimeError "No suitable converter found - profile not recognized.") := by
  simp [ConvertProfile, h1, h2]

/-- C2 (witness): the swallowing at a concrete archive whose Darwin parse
raises the unknown-architecture failure. -/
theorem C2_witness :
    ConvertProfile [("kernel.dsymutil", "Symbol table for: mach (i860)")] none =
      .error (.runtimeError "No suitable converter found - profile not recognized.") :=
  C2_dispatcher_swallows [("kernel.dsymutil", "Symbol table for: mach (i860)")] none
    "Unknown profile format." "Unknown Darwin Architecture (i860)" rfl rfl

/-- C3 (counterexample): with maximum address exactly `0x100000000` (2^32)
the claim demands `Linux64`, but the conversion infers `Linux32`, because
the source compares with `> 2**32` rather than `> 2**32 - 1`. -/
theorem C3_counterexample :
    LinuxConverter.Convert none [("System.map", "100000000 T high"), ("v.json", "j")] =
      .ok (ProfileConverter.WriteProfile (some "Linux32") [("high", 4294967296)]
        (VTypes.fromJson "j")) := rfl

/-- C3 (amended): with no explicit profile class and a non-empty parsed
symbol table, the inferred class is `Linux64` exactly when the maximum
address strictly exceeds `2^32` (so a maximum of `0x100000000` and a maximum
of `0xffff` both yield `Linux32`). -/
theorem C3_inference_threshold (m : SymMap) (v : VTypes) (largest : Int)
    (h : pyMaxValues m = .ok largest) :
    LinuxConverter.WriteProfile "Linux" none m v =
      .ok (ProfileConverter.WriteProfile
        (some (if (2 : Int) ^ 32 < largest then "Linux64" else "Linux32")) m v) := by
  simp only [LinuxConverter.WriteProfile, h, gt_iff_lt]
  split_ifs with h2 <;> rfl

/-- C3 (witness): a maximum address of `2^32 + 1` infers `Linux64`. -/
theorem C3_witness :
    LinuxConverter.WriteProfile "Linux" none [("high", 4294967297)] (VTypes.fromJson "j") =
      .ok (ProfileConverter.WriteProfile
        (some (if (2 : Int) ^ 32 < (4294967297 : Int) then "Linux64" else "Linux32"))
        [("high", 4294967297)] (VTypes.fromJson "j")) :=
  C3_inference_threshold [("high", 4294967297)] (VTypes.fromJson "j") 4294967297 rfl

/-- C4 (code bug): `ConvertProfile` accepts a `profile_class` override but
constructs each converter as `converter(input, output)`, never forwarding
it, so the automatic path ignores the override entirely: the result is
independent of the supplied override, and with override `Linux64` on a
small-address Linux archive the metadata still carries the inferred
`Linux32`. -/
theorem C4_override_ignored :
    (∀ (input : Archive) (pc1 pc2 : Option String),
      ConvertProfile input pc1 = ConvertProfile input pc2)
    ∧ ConvertProfile [("System.map", "ffff T sym"), ("v.json", "j")] (some "Linux64") =
      .ok (ProfileConverter.WriteProfile (some "Linux32") [("sym", 65535)]
        (VTypes.fromJson "j")) :=
  ⟨fun _ _ _ => rfl, rfl⟩

/-- C5 (counterexample): called with the profile class still unresolved, the
shared writer does not fail — it emits all three entries, the metadata one
carrying the unresolved (`None`) profile class. -/
theorem C5_counterexample :
    ProfileConverter.WriteProfile none [("a", 1)] (VTypes.fromJson "j") =
      [("Constants.json", OutValue.constantsData [("a", 1)]),
       ("vtypes.json", OutValue.vtypesData (VTypes.fromJson "j")),
       ("metadata", OutValue.metadata none "Constants.json" "vtypes.json")] := rfl

/-- C5 (amended): the shared writer performs no resolution check; for every
symbol table and type table it writes a metadata entry whose `ProfileClass`
is the unresolved value when called unresolved (resolution is enforced only
upstream, by the variants). -/
theorem C5_writer_no_check (m : SymMap) (v : VTypes) :
    ("metadata", OutValue.metadata none "Constants.json" "vtypes.json") ∈
      ProfileConverter.WriteProfile none m v := by
  simp [ProfileConverter.WriteProfile]

/-- C6 (counterexample): a parsed symbol table containing only the zero
address does not raise — the conversion silently infers `Linux32`,
contradicting the claim that an all-zero table raises a fatal
unresolved-architecture failure. -/
theorem C6_counterexample :
    ConvertProfile [("System.map", "0 T a"), ("v.json", "j")] none =
      .ok (ProfileConverter.WriteProfile (some "Linux32") [("a", 0)]
        (VTypes.fromJson "j")) := rfl

/-- C6 (amended): only the empty symbol table aborts the conversion — via an
uncaught `ValueError` from `max` over an empty sequence, which does halt the
dispatcher's iteration (it is not a `RuntimeError`, so it is not swallowed
into `No suitable converter found`); an all-zero table instead defaults
silently to `Linux32`. -/
theorem C6_empty_map_raises :
    (∀ v : VTypes,
      LinuxConverter.WriteProfile "Linux" none [] v = .error PyError.valueError)
    ∧ ConvertProfile [("System.map", "zz T a"), ("v.json", "j")] none =
      .error PyError.valueError :=
  ⟨fun _ => rfl, rfl⟩

/-- C7 (confirmed): with no profile class yet set, the first scanned line
containing `Symbol table for` decides the class from its final whitespace
token — `(x86_64)` gives `Darwin64`, `(i386)` gives `Darwin32`, and any
other token raises the fatal unknown-architecture `RuntimeError`; later
lines cannot change the decision. -/
theorem C7_arch_marker (pre post : List String) (l : String)
    (hpre : ∀ p ∈ pre, containsStr p "Symbol table for" = false)
    (hl : containsStr l "Symbol table for" = true) :
    ((pySplitWS l).getLast?.getD "" = "(x86_64)" →
      osxParseLines (none, []) (pre ++ l :: post) =
        .ok (some "Darwin64", osxSymFold (osxSymUpdate (osxSymFold [] pre) l) post))
    ∧ ((pySplitWS l).getLast?.getD "" = "(i386)" →
      osxParseLines (none, []) (pre ++ l :: post) =
        .ok (some "Darwin32", osxSymFold (osxSymUpdate (osxSymFold [] pre) l) post))
    ∧ ((pySplitWS l).getLast?.getD "" ≠ "(x86_64)" →
      (pySplitWS l).getLast?.getD "" ≠ "(i386)" →
      osxParseLines (none, []) (pre ++ l :: post) =
        .error (.runtimeError
          ("Unknown Darwin Architecture " ++ (pySplitWS l).getLast?.getD ""))) := by
  have hbase := osxParseLines_append pre (l :: post) [] hpre
  refine ⟨fun h64 => ?_, fun h32 => ?_, fun hn64 hn32 => ?_⟩
  · rw [hbase]
    have hline : osxParseLine (none, osxSymFold [] pre) l =
        .ok (some "Darwin64", osxSymUpdate (osxSymFold [] pre) l) := by
      simp [osxParseLine, osxArchCheck_marker l hl, h64]
    simp only [osxParseLines, hline]
    exact osxParseLines_some _ _ _
  · rw [hbase]
    have hline : osxParseLine (none, osxSymFold [] pre) l =
        .ok (some "Darwin32", osxSymUpdate (osxSymFold [] pre) l) := by
      simp [osxParseLine, osxArchCheck_marker l hl, h32]
    simp only [osxParseLines, hline]
    exact osxParseLines_some _ _ _
  · rw [hbase]
    have hline : osxParseLine (none, osxSymFold [] pre) l =
        .error (.runtimeError
          ("Unknown Darwin Architecture " ++ (pySplitWS l).getLast?.getD "")) := by
      simp [osxParseLine, osxArchCheck_marker l hl, hn64, hn32]
    simp only [osxParseLines, hline]

/-- C7 (witness): after one marker-free line, a `Symbol table for` line
ending in `(x86_64)` sets the class to `Darwin64`. -/
theorem C7_witness :
    osxParseLines (none, []) (["junk"] ++ "Symbol table for: m (x86_64)" :: []) =
      .ok (some "Darwin64",
        osxSymFold (osxSymUpdate (osxSymFold [] ["junk"]) "Symbol table for: m (x86_64)") []) :=
  (C7_arch_marker ["junk"] [] "Symbol table for: m (x86_64)" (by decide) (by decide)).1
    (by decide)

/-- C8 (confirmed): whenever the Linux variant takes the kernel-module path
(`System.map` selected with non-empty content that parses, and a non-empty
`.ko` member selected), the output starts with the raw module bytes written
verbatim under the fixed name `module.ko`, byte-identical to the selected
source entry. -/
theorem C8_module_copy (pc : Option String) (input : Archive) (smc ko : String)
    (m : SymMap) (w : List (String × OutValue))
    (hsm : ProfileConverter.SelectFile matchSystemMap input = some smc)
    (hsmne : smc ≠ "")
    (hparse : LinuxConverter.ParseSystemMap smc = .ok m)
    (hko : ProfileConverter.SelectFile (lowerEndsWith ".ko") input = some ko)
    (hkone : ko ≠ "")
    (hwp : LinuxConverter.WriteProfile "Linux" pc m (VTypes.fromKo ko) = .ok w) :
    LinuxConverter.Convert pc input = .ok (("module.ko", OutValue.raw ko) :: w) := by
  simp [LinuxConverter.Convert, hsm, hsmne, hparse, hko, hkone, hwp, pyTruthy]

/-- C8 (witness): a concrete archive with a `System.map` and a `.ko` member
yields `module.ko` with the module's exact bytes. -/
theorem C8_witness :
    LinuxConverter.Convert none [("System.map", "c0100000 T init"), ("driver.ko", "ELFBYTES")] =
      .ok (("module.ko", OutValue.raw "ELFBYTES") ::
        ProfileConverter.WriteProfile (some "Linux32") [("init", 3222274048)]
          (VTypes.fromKo "ELFBYTES")) :=
  C8_module_copy none [("System.map", "c0100000 T init"), ("driver.ko", "ELFBYTES")]
    "c0100000 T init" "ELFBYTES" [("init", 3222274048)]
    (ProfileConverter.WriteProfile (some "Linux32") [("init", 3222274048)]
      (VTypes.fromKo "ELFBYTES"))
    rfl (by decide) rfl rfl (by decide) rfl

/-- C9 (confirmed): `SelectFile` scans the archive's entries in listed
order; it returns the contents of the first entry whose name the pattern
matches, and an absent (`none`) result — not an error — when no entry
matches. -/
theorem C9_select_first (p : String → Bool) (pre post : Archive) (n c : String)
    (hpre : ∀ e ∈ pre, p e.1 = false) :
    ProfileConverter.SelectFile p pre = none
    ∧ (p n = true → ProfileConverter.SelectFile p (pre ++ (n, c) :: post) = some c) := by
  induction pre with
  | nil =>
    refine ⟨rfl, fun h => ?_⟩
    simp [ProfileConverter.SelectFile, h]
  | cons e es ih =>
    obtain ⟨n2, c2⟩ := e
    have he : p n2 = false := hpre (n2, c2) (by simp)
    have hes : ∀ e ∈ es, p e.1 = false := fun e hme => hpre e (by simp [hme])
    obtain ⟨ih1, ih2⟩ := ih hes
    refine ⟨?_, fun h => ?_⟩
    · simp [ProfileConverter.SelectFile, he, ih1]
    · simp [ProfileConverter.SelectFile, he, ih2 h]

/-- C9 (witness): with a non-matching head entry, the case-insensitive
`.ko` pattern selects `B.KO` (the first match) and skips the later
`c.ko`; on the non-matching prefix alone the result is absent. -/
theorem C9_witness :
    ProfileConverter.SelectFile (lowerEndsWith ".ko") [("a.txt", "x")] = none
    ∧ ProfileConverter.SelectFile (lowerEndsWith ".ko")
        ([("a.txt", "x")] ++ ("B.KO", "bytes") :: [("c.ko", "other")]) = some "bytes" :=
  ⟨(C9_select_first (lowerEndsWith ".ko") [("a.txt", "x")] [("c.ko", "other")]
      "B.KO" "bytes" (by decide)).1,
   (C9_select_first (lowerEndsWith ".ko") [("a.txt", "x")] [("c.ko", "other")]
      "B.KO" "bytes" (by decide)).2 (by decide)⟩

/-- C10 (confirmed): a Darwin conversion with no explicit profile class
whose dsymutil dump has no `Symbol table for` line does not fail at parse
time; the class falls back to the inherited max-address inference with the
`Darwin` family name — `Darwin64` exactly when the largest parsed address
exceeds `2^32`, else `Darwin32` (the `pyMaxValues` hypothesis requires the
parsed table to be non-empty). -/
theorem C10_fallback_inference (input : Archive) (smc vt : String) (largest : Int)
    (hsm : ProfileConverter.SelectFile (lowerEndsWith "dsymutil") input = some smc)
    (hne : smc ≠ "")
    (hnomarker : ∀ l ∈ pySplitLines smc, containsStr l "Symbol table for" = false)
    (hvt : ProfileConverter.SelectFile (lowerEndsWith ".vtypes") input = some vt)
    (hvtne : vt ≠ "")
    (hmax : pyMaxValues (osxSymFold [] (pySplitLines smc)) = .ok largest) :
    OSXConverter.Convert none input =
      .ok (ProfileConverter.WriteProfile
        (some (if (2 : Int) ^ 32 < largest then "Darwin64" else "Darwin32"))
        (osxSymFold [] (pySplitLines smc)) (VTypes.fromVtypes vt)) := by
  have hparse : OSXConverter.ParseSystemMap none smc =
      .ok (none, osxSymFold [] (pySplitLines smc)) :=
    osxParseLines_nomarker _ _ hnomarker
  simp only [OSXConverter.Convert, hsm, hparse, Option.getD_some, pyTruthy]
  simp only [bne_iff_ne, ne_eq, hne, not_false_eq_true, if_true, hvt, hvtne,
    Option.getD_some, LinuxConverter.WriteProfile, hmax, gt_iff_lt]
  split_ifs with h2 <;> rfl

/-- C10 (witness): a dump with one `N_GSYM` line at address `0x100000001`
and no architecture-marker line converts with inferred class `Darwin64`. -/
theorem C10_witness :
    OSXConverter.Convert none
        [("kernel.dsymutil", "x N_GSYM 0x100000001 'g'"), ("mac.vtypes", "types")] =
      .ok (ProfileConverter.WriteProfile
        (some (if (2 : Int) ^ 32 < (4294967297 : Int) then "Darwin64" else "Darwin32"))
        (osxSymFold [] (pySplitLines "x N_GSYM 0x100000001 'g'"))
        (VTypes.fromVtypes "types")) :=
  C10_fallback_inference
    [("kernel.dsymutil", "x N_GSYM 0x100000001 'g'"), ("mac.vtypes", "types")]
    "x N_GSYM 0x100000001 'g'" "types" 4294967297 rfl (by decide) (by decide)
    rfl (by decide) rfl
